import Mathlib

/-!
Verification of the chromaticker display-orchestration core.

Shallow embedding of the relevant parts of `ticker.py`, `rendering.py` and
`utils.py`.  Python floats are modelled as rationals, Python ints as `Int`
(or `Nat` where the source value is a non-negative counter), wall-clock
times of day as rational seconds since midnight, and `datetime.time`
comparison by the numeric order on those seconds.
-/

namespace Chromaticker

/-- Scroll pixel mapping, `ticker.py` line 12: `_sp = lambda x: math.ceil(x - 0.5)`. -/
def sp (x : ℚ) : ℤ := Int.ceil (x - 1/2)

/-- `rendering.py` `time_in_range`: half-open window test with overnight
wrap-around, literally
`(start_t <= end_t and start_t <= now_t < end_t) or (start_t > end_t and (now_t >= start_t or now_t < end_t))`. -/
def time_in_range (now_t start_t end_t : ℚ) : Bool :=
  decide ((start_t ≤ end_t ∧ start_t ≤ now_t ∧ now_t < end_t) ∨
          (start_t > end_t ∧ (now_t ≥ start_t ∨ now_t < end_t)))

/-- `rendering.py` `parse_hhmm` after string splitting: clamp the parsed
hour into [0,23] and the minute into [0,59] (`max(0, min(23, int(hh)))`,
`max(0, min(59, int(mm)))`). -/
def parse_hhmm (hh mm : ℤ) : ℤ × ℤ := (max 0 (min 23 hh), max 0 (min 59 mm))

/-- A `datetime.time(h, m)` value as rational seconds since midnight; the
source compares such values by their total order, which this respects. -/
def dtime_val (h m : ℤ) : ℚ := ((h * 3600 + m * 60 : ℤ) : ℚ)

/-- `rendering.py` `current_dim_scale`: quick-dim override first, else the
night-mode window, else full brightness; both percentage branches are
clamped by `max(0.01, min(1.0, pct/100.0))`. -/
def current_dim_scale (QUICK_DIM_PCT : ℚ) (NIGHT_MODE_ENABLED : Bool)
    (nm_start_h nm_start_m nm_end_h nm_end_m : ℤ)
    (NIGHT_MODE_DIM_PCT : ℚ) (now_t : ℚ) : ℚ :=
  if QUICK_DIM_PCT > 0 then
    max (1/100) (min 1 (QUICK_DIM_PCT / 100))
  else if NIGHT_MODE_ENABLED = true ∧
       time_in_range now_t
         (dtime_val (parse_hhmm nm_start_h nm_start_m).1 (parse_hhmm nm_start_h nm_start_m).2)
         (dtime_val (parse_hhmm nm_end_h nm_end_m).1 (parse_hhmm nm_end_h nm_end_m).2) = true then
    max (1/100) (min 1 (NIGHT_MODE_DIM_PCT / 100))
  else 1

/-- Substring containment on character lists, modelling Python's
`needle in haystack` for strings. -/
def has_sub : List Char → List Char → Bool
  | [], needle => decide (needle = [])
  | c :: t, needle => List.isPrefixOf needle (c :: t) || has_sub t needle

/-- Python `needle in haystack` on strings. -/
def str_contains (hay needle : String) : Bool := has_sub hay.toList needle.toList

/-- `utils.py` `get_market_event_announcement` with pytz available: an
"open" announcement during 9:30-9:32 ET, a "close" announcement during
16:00-16:02 ET, weekdays only (weekday 0 = Monday). -/
def get_market_event_announcement (weekday hour minute : ℕ) : Bool × String × String :=
  if weekday ≥ 5 then (false, "", "green")
  else if hour = 9 ∧ 30 ≤ minute ∧ minute < 33 then (true, "*** MARKET OPEN ***", "green")
  else if hour = 16 ∧ minute < 3 then (true, "*** MARKET CLOSED ***", "red")
  else (false, "", "green")

/-- `ticker.py` `check_market_event_preroll` (lines 986-1012).  The
`market_event_shown_today` set is threaded explicitly, its keys
`f"{date}_{event_type}"` modelled as `(date, event_type)` pairs (the date
rendered into the key is injective per calendar date).  The announcement
oracle result `(should_show, message)` is an input.  Returns
`(triggered, event_type, updated_shown_set)`. -/
def check_market_event_preroll (TIME_PREROLL_ENABLED : Bool)
    (shown : List (ℕ × String)) (today : ℕ) (should_show : Bool)
    (message : String) : Bool × Option String × List (ℕ × String) :=
  if TIME_PREROLL_ENABLED = false then (false, none, shown)
  else if should_show = false then (false, none, shown)
  else
    let up := message.toUpper
    let event_type : Option String :=
      if str_contains up "OPEN" = true then some "open"
      else if str_contains up "CLOSE" = true then some "close"
      else none
    match event_type with
    | none => (false, none, shown)
    | some t =>
      if (today, t) ∈ shown then (false, none, shown)
      else (true, some t, (today, t) :: shown)

/-- Display state, `ticker.py` line 958: `STATE_TICKER, STATE_PREROLL,
STATE_SCOREBOARD = "TK", "PR", "SB"`. -/
inductive St where
  | ticker
  | preroll
  | scoreboard
deriving DecidableEq, Repr

/-- `ticker.py` `_compute_next_hour_ts`: the next top-of-hour boundary of
the epoch-seconds clock (local-offset arithmetic elided; no claim depends
on the returned value). -/
def compute_next_hour_ts (now : ℚ) : ℚ := 3600 * ((Int.floor (now / 3600) : ℤ) + 1)

/-- The mutable display-machine variables of `ticker.py run` that the
transition block (lines 1266-1287) reads or writes, plus the two gate
variables: `override_mode` (with `override_active == (override_mode != "OFF")`,
maintained at lines 710, 1098, 1211) and whether `alert_obj` is not `None`. -/
structure Bundle where
  state : St
  preroll_reason : String
  state_enter_ts : ℚ
  next_top_ts : ℚ
  shown_today : List (ℕ × String)
  override_mode : String
  alert_obj : Bool
deriving DecidableEq, Repr

/-- The per-tick facts the transition block consults: wall clock, calendar
date, the config globals it reads, the market-announcement oracle, and
`any_live` (line 1258). -/
structure TickIn where
  now : ℚ
  date : ℕ
  TIME_PREROLL_ENABLED : Bool
  SCOREBOARD_ENABLED : Bool
  SCOREBOARD_PRECEDENCE : String
  TIME_PREROLL_SEC : ℚ
  SCORE_ALERTS_ENABLED : Bool
  ann_should_show : Bool
  ann_message : String
  any_live : Bool
deriving DecidableEq, Repr

/-- The `ticker.py` normal state-transition block (lines 1266-1287),
guarded by `if not override_active and not (SCORE_ALERTS_ENABLED and alert_obj)`. -/
def display_step (i : TickIn) (b : Bundle) : Bundle :=
  if b.override_mode = "OFF" ∧ ¬(i.SCORE_ALERTS_ENABLED = true ∧ b.alert_obj = true) then
    match b.state with
    | St.ticker =>
      if i.TIME_PREROLL_ENABLED = true ∧ i.now ≥ b.next_top_ts then
        { b with state := St.preroll, state_enter_ts := i.now,
                 preroll_reason := "hour", next_top_ts := compute_next_hour_ts i.now }
      else
        let mk := check_market_event_preroll i.TIME_PREROLL_ENABLED b.shown_today
                    i.date i.ann_should_show i.ann_message
        if mk.1 = true then
          { b with state := St.preroll, state_enter_ts := i.now,
                   preroll_reason := "market_" ++ mk.2.1.getD "", shown_today := mk.2.2 }
        else if i.SCOREBOARD_ENABLED = true ∧ i.any_live = true then
          { b with state := St.scoreboard, state_enter_ts := i.now, shown_today := mk.2.2 }
        else
          { b with shown_today := mk.2.2 }
    | St.preroll =>
      if i.SCOREBOARD_PRECEDENCE = "force" ∧ i.SCOREBOARD_ENABLED = true ∧ i.any_live = true then
        { b with state := St.scoreboard, state_enter_ts := i.now }
      else if i.now - b.state_enter_ts ≥ i.TIME_PREROLL_SEC then
        { b with state := St.ticker, state_enter_ts := i.now }
      else b
    | St.scoreboard =>
      if ¬(i.SCOREBOARD_ENABLED = true ∧ i.any_live = true) then
        { b with state := St.ticker, state_enter_ts := i.now }
      else b
  else b

/-- The render-phase precedence chain of `ticker.py run` (lines 1366-1515)
as far as it touches the display state: the exclusive-override branch
(`if override_active and override_mode != "BRIGHT"`, line 1366) and the
score-alert branch (line 1464, which also fires on a pending
`alert_queue`) claim the frame without changing the state; otherwise a
PREROLL frame with a market reason re-polls the announcement oracle
(modelled as the same tick's oracle fields) and, when the window has
closed, ends the preroll early at line 1508:
`state = STATE_TICKER; state_enter_ts = time.time()`.  No other state
assignment exists outside the guarded transition block (grep over
`ticker.py`: lines 959, 1269-1286, 1508). -/
def render_phase_step (i : TickIn) (alert_queue_pending : Bool) (b : Bundle) : Bundle :=
  if ¬ b.override_mode = "OFF" ∧ ¬ b.override_mode = "BRIGHT" then b
  else if i.SCORE_ALERTS_ENABLED = true ∧ (b.alert_obj = true ∨ alert_queue_pending = true) then b
  else if b.state = St.preroll then
    if b.preroll_reason = "market_open" ∨ b.preroll_reason = "market_close" then
      if i.ann_should_show = true ∧ ¬ i.ann_message = "" then b
      else { b with state := St.ticker, state_enter_ts := i.now }
    else b
  else b

/-- One whole tick's effect on the display state: the guarded transition
block (lines 1266-1287) followed by the render-phase chain (lines
1366-1515). -/
def full_tick (i : TickIn) (alert_queue_pending : Bool) (b : Bundle) : Bundle :=
  render_phase_step i alert_queue_pending (display_step i b)

/-- The inputs of one single-row scroll advance + completion step
(`ticker.py` lines 1663-1675): scroll speed, frame delta, composed segment
width (before the `max(1, total_w)` floor), frame width `W`, and the
message-injection config globals. -/
structure RowIn where
  pps : ℚ
  dt : ℚ
  total_w : ℚ
  W : ℚ
  MESSAGE_TEST_FORCE : Bool
  injector_active : Bool
  MESSAGE_ROW : String
  MESSAGE_EVERY : ℤ
deriving DecidableEq, Repr

/-- The single-row scroll cursor state: `x_single`, `completed_single`,
`show_msg_single`, `market_open_scrolls_left`. -/
structure RowSt where
  x : ℚ
  completed : ℤ
  show_msg : Bool
  market_open_scrolls_left : ℤ
deriving DecidableEq, Repr

/-- One tick of the normal single-row branch (`ticker.py` lines 1663-1675):
`total_w = max(1, total_w)`; `x_single -= pps_single_current * dt`; on
`x_single < -total_w`: increment `completed_single`, reset `x_single` to
`float(W)`, decrement `market_open_scrolls_left` when positive, and (unless
`MESSAGE_TEST_FORCE`) recompute `show_msg_single` as
`injector_active and (MESSAGE_ROW in ("single","auto")) and (((completed_single+1) % max(1,MESSAGE_EVERY)) == 0)`. -/
def single_row_step (i : RowIn) (s : RowSt) : RowSt :=
  let total_w := max 1 i.total_w
  let x1 := s.x - i.pps * i.dt
  if x1 < -total_w then
    let completed := s.completed + 1
    let mosl := if s.market_open_scrolls_left > 0 then s.market_open_scrolls_left - 1
                else s.market_open_scrolls_left
    let show_msg := if i.MESSAGE_TEST_FORCE = true then s.show_msg
      else i.injector_active &&
           (decide (i.MESSAGE_ROW = "single") || decide (i.MESSAGE_ROW = "auto")) &&
           decide ((completed + 1) % max 1 i.MESSAGE_EVERY = 0)
    { x := i.W, completed := completed, show_msg := show_msg, market_open_scrolls_left := mosl }
  else
    { s with x := x1 }

/-- A `multiprocessing.Queue(maxsize=n)` as observed by the single-threaded
producer/consumer pair: `maxsize = 0` means unbounded, as in Python. -/
structure BQueue (α : Type) where
  maxsize : ℕ
  items : List α
deriving DecidableEq, Repr

/-- `q.put_nowait(p)`: fails (raises `Full`, here `none`) iff the queue is
bounded and full; otherwise appends. -/
def put_nowait {α : Type} (q : BQueue α) (p : α) : Option (BQueue α) :=
  if 0 < q.maxsize ∧ q.maxsize ≤ q.items.length then none
  else some { q with items := q.items ++ [p] }

/-- `q.get_nowait()`: raises `Empty` (here `none`) on an empty queue,
otherwise pops the oldest item. -/
def get_nowait {α : Type} (q : BQueue α) : Option (α × BQueue α) :=
  match q.items with
  | [] => none
  | h :: t => some (h, { q with items := t })

/-- The `while True: q.get_nowait()`-until-`Empty` drain loop of
`utils.py put_latest`, applied to the item list. -/
def drain_all_items {α : Type} : List α → List α
  | [] => []
  | _ :: t => drain_all_items t

/-- `utils.py` `put_latest` (lines 301-319): drain every pending entry,
push the new payload, and on a (here unreachable) `Full` drop one entry and
retry once, giving up silently if still full. -/
def put_latest {α : Type} (q : BQueue α) (p : α) : BQueue α :=
  let q1 : BQueue α := { q with items := drain_all_items q.items }
  match put_nowait q1 p with
  | some q2 => q2
  | none =>
    let q3 : BQueue α := match get_nowait q1 with
      | some r => r.2
      | none => q1
    match put_nowait q3 p with
    | some q4 => q4
    | none => q3

/-- The consumer-side drain (`ticker.py` lines 832-872): `get_nowait` in a
loop until `Empty`, each message overwriting the cache, so the folded
result is the newest (last) pending payload. -/
def drain_newest {α : Type} : List α → Option α
  | [] => none
  | h :: t =>
    match drain_newest t with
    | none => some h
    | some x => some x

/-- A config.json value, restricted to the shapes the document actually
holds (strings, numbers, booleans, string lists). -/
inductive JVal where
  | s (v : String)
  | n (v : ℚ)
  | b (v : Bool)
  | strs (v : List String)
deriving DecidableEq, Repr

/-- The in-memory module globals, keyed by name (`None`/absent modelled as
`Option.none`, matching `globals().get(key, None)`). -/
def Globals : Type := String → Option JVal

/-- The change-category flags of `ticker.py _apply_config`. -/
structure Changed where
  any : Bool
  layout : Bool
  dim : Bool
  markets : Bool
  scoreboard : Bool
  override : Bool
  weather : Bool
  message : Bool
deriving DecidableEq, Repr

/-- All flags false, the initial `changed` dict of `_apply_config`. -/
def no_changes : Changed := ⟨false, false, false, false, false, false, false, false⟩

/-- Key lookup in the parsed config document. -/
def lookup_key : List (String × JVal) → String → Option JVal
  | [], _ => none
  | kv :: t, key => if kv.1 = key then some kv.2 else lookup_key t key

/-- The per-key value transformations of `set_if`: `PREROLL_STYLE` and
`OVERRIDE_MODE` strings are upper-cased. -/
def transform_key (key : String) (v : JVal) : JVal :=
  if key = "PREROLL_STYLE" ∨ key = "OVERRIDE_MODE" then
    match v with
    | JVal.s t => JVal.s t.toUpper
    | _ => v
  else v

/-- The category-flag updates `set_if` performs when a key's value
changed. -/
def flag_update (key : String) (c : Changed) : Changed :=
  { any := true
    layout := c.layout || decide (key ∈ ["MODEL_NAME", "W", "H", "LAYOUT"])
    dim := c.dim || key.startsWith "NIGHT_MODE" || decide (key = "QUICK_DIM_PCT")
    markets := c.markets ||
      decide (key ∈ ["TICKERS_TOP", "TICKERS_BOT", "TICKERS_BOT2", "HOLDINGS", "HOLDINGS_ENABLED"])
    scoreboard := c.scoreboard || key.startsWith "SCOREBOARD_"
    override := c.override || key.startsWith "CLOCK_" || key.startsWith "OVERRIDE_"
    weather := c.weather || key.startsWith "WEATHER_"
    message := c.message ||
      decide (key ∈ ["INJECT_MESSAGE", "MESSAGE_EVERY", "MESSAGE_ROW", "MESSAGE_COLOR",
                     "MESSAGE_TEST_FORCE"]) }

/-- `ticker.py _apply_config`'s inner `set_if(key)`: no-op when the key is
absent from the document; otherwise transform the value and, when it
differs from the current global, store it and raise the category flags. -/
def set_if (cfg : List (String × JVal)) (key : String) (acc : Globals × Changed) :
    Globals × Changed :=
  match lookup_key cfg key with
  | none => acc
  | some v =>
    let new_v := transform_key key v
    if acc.1 key = some new_v then acc
    else (fun k => if k = key then some new_v else acc.1 k, flag_update key acc.2)

/-- The full key list `_apply_config` iterates over (`ticker.py` lines
463-502). -/
def config_keys : List String := [
    "RGB_BRIGHTNESS", "RGB_HARDWARE_MAPPING", "RGB_GPIO_SLOWDOWN", "RGB_PWM_BITS",
    "RGB_PWM_LSB_NANOSECONDS", "RGB_CHAIN_LENGTH", "RGB_PARALLEL", "RGB_SCAN_MODE",
    "RGB_ROW_ADDRESS_TYPE", "RGB_MULTIPLEXING", "RGB_LED_RGB_SEQUENCE", "RGB_PIXEL_MAPPER",
    "RGB_PANEL_TYPE", "MODEL_NAME", "W", "H", "LAYOUT", "TICKER_TZ", "FPS", "PPS_TOP",
    "PPS_BOT", "PPS_SINGLE", "REFRESH_SEC", "FRESH_SEC", "TIME_PREROLL_ENABLED",
    "TIME_PREROLL_SEC", "PREROLL_STYLE", "PREROLL_COLOR", "PREROLL_PPS",
    "MAINTENANCE_MODE", "MAINTENANCE_TEXT", "MAINTENANCE_SCROLL", "MAINTENANCE_PPS",
    "WEATHER_RSS_URL", "WEATHER_REFRESH_SEC", "WEATHER_ANNOUNCE_SEC", "WEATHER_TIMEOUT",
    "WEATHER_INCLUDE_WATCH", "WEATHER_FORCE_ACTIVE", "WEATHER_FORCE_TEXT",
    "WEATHER_TEST_DELAY", "WEATHER_WARNING_EVERY_N_SCROLLS", "WEATHER_WARNING_COLOR",
    "WEATHER_ADVISORY_EVERY_N_SCROLLS", "WEATHER_ADVISORY_COLOR", "WEATHER_STICKY_SEC",
    "WEATHER_TEST_STICKY_TOTAL", "WEATHER_REPEAT_SEC", "INJECT_MESSAGE", "MESSAGE_EVERY",
    "MESSAGE_ROW", "MESSAGE_COLOR", "MESSAGE_TEST_FORCE", "NIGHT_MODE_ENABLED",
    "NIGHT_MODE_START", "NIGHT_MODE_END", "NIGHT_MODE_DIM_PCT", "NIGHT_MODE_SPEED_PCT",
    "QUICK_DIM_PCT", "FONT_FAMILY_BASE", "FONT_FAMILY_SCOREBOARD", "FONT_FAMILY_DEBUG",
    "PREROLL_FONT_FAMILY", "MAINT_FONT_FAMILY", "FONT_SIZE_ROW", "FONT_SIZE_SB",
    "FONT_SIZE_DEBUG", "PREROLL_FONT_PX", "MAINT_FONT_PX", "FONT_BOLD_BASE",
    "FONT_BOLD_SB", "FONT_BOLD_DEBUG", "PREROLL_FONT_BOLD", "MAINT_FONT_BOLD",
    "SCOREBOARD_ENABLED", "SCOREBOARD_LEAGUES", "SCOREBOARD_NHL_TEAMS",
    "SCOREBOARD_NFL_TEAMS", "SCOREBOARD_POLL_WINDOW_MIN", "SCOREBOARD_POLL_CADENCE",
    "SCOREBOARD_LIVE_REFRESH", "SCOREBOARD_PREGAME_WINDOW_MIN",
    "SCOREBOARD_POSTGAME_DELAY_MIN", "SCOREBOARD_SHOW_COUNTDOWN", "SCOREBOARD_PRECEDENCE",
    "SCOREBOARD_LAYOUT", "SCOREBOARD_UPPERCASE", "SCOREBOARD_HOME_FIRST",
    "SCOREBOARD_SHOW_CLOCK", "SCOREBOARD_SHOW_SOG", "SCOREBOARD_SHOW_POSSESSION",
    "SCOREBOARD_INCLUDE_OTHERS", "SCOREBOARD_ONLY_MY_TEAMS", "SCOREBOARD_MAX_GAMES",
    "SCOREBOARD_SCROLL_ENABLED", "SCOREBOARD_STATIC_DWELL_SEC", "SCOREBOARD_STATIC_ALIGN",
    "OVERRIDE_MODE", "OVERRIDE_DURATION_MIN", "OVERRIDE_MESSAGE_TEXT",
    "SCORE_ALERTS_ENABLED", "SCORE_ALERTS_NHL", "SCORE_ALERTS_NFL",
    "SCORE_ALERTS_MY_TEAMS_ONLY", "SCORE_ALERTS_CYCLES", "SCORE_ALERTS_QUEUE_MAX",
    "SCORE_ALERTS_FLASH_MS", "SCORE_ALERTS_FLASH_COLORS", "SCORE_ALERTS_NFL_TD_DELTA_MIN",
    "SCORE_ALERTS_TEST", "SCORE_ALERTS_TEST_LEAGUE", "SCORE_ALERTS_TEST_TEAM",
    "SCORE_ALERTS_TEST_INTERVAL_SEC", "TICKERS_TOP", "TICKERS_BOT", "TICKERS_BOT2",
    "HOLDINGS_ENABLED", "HOLDINGS", "MICROFONT_ENABLED", "SCOREBOARD_TEST",
    "SCOREBOARD_TEST_LEAGUE", "SCOREBOARD_TEST_HOME", "SCOREBOARD_TEST_AWAY",
    "SCOREBOARD_TEST_DURATION", "CLOCK_24H", "CLOCK_SHOW_SECONDS", "CLOCK_BLINK_COLON",
    "CLOCK_COLOR", "CLOCK_DATE_SHOW", "CLOCK_DATE_FMT", "CLOCK_DATE_COLOR",
    "DEBUG_OVERLAY", "DEMO_MODE"]

/-- `ticker.py _apply_config`: fold `set_if` over the key list, then run
`_recompute_layout_globals` (passed in as the collaborator `recompute`)
when the layout flag was raised. -/
def apply_config (recompute : Globals → Globals) (cfg : List (String × JVal))
    (g : Globals) : Globals × Changed :=
  let r := config_keys.foldl (fun acc key => set_if cfg key acc) (g, no_changes)
  if r.2.layout = true then (recompute r.1, r.2) else r

/-- `ticker.py _atomic_load_json`: a missing file, a parse failure or a
falsy document all yield the empty config (`{}` on error, `or {}`). -/
def atomic_load_json (doc : Option (List (String × JVal))) : List (String × JVal) :=
  doc.getD []

/-- `ticker.py _maybe_reload_config`: when the mtime probe fails (missing
file) or the mtime has not advanced, return without touching anything;
otherwise load (possibly-corrupt → empty) and apply.  Returns the new
globals, the change flags, the `reloaded` flag and the new stored mtime. -/
def maybe_reload_config (recompute : Globals → Globals) (mtime_read : Option ℚ)
    (cfg_mtime : ℚ) (doc : Option (List (String × JVal))) (g : Globals) :
    Globals × Changed × Bool × ℚ :=
  match mtime_read with
  | none => (g, no_changes, false, cfg_mtime)
  | some m =>
    if m ≤ cfg_mtime then (g, no_changes, false, cfg_mtime)
    else
      let r := apply_config recompute (atomic_load_json doc) g
      (r.1, r.2, true, m)

/-- One tick's inputs to `check_market_event_preroll`: the calendar date,
the `TIME_PREROLL_ENABLED` global of that tick, and the announcement
oracle result. -/
structure MTick where
  date : ℕ
  enabled : Bool
  should_show : Bool
  message : String
deriving DecidableEq, Repr

/-- The sequence of `(date, event_type)` keys fired over a run of ticks,
each tick calling `check_market_event_preroll` and threading the
`market_event_shown_today` set (which the source only ever adds to). -/
def market_trace : List MTick → List (ℕ × String) → List (ℕ × String)
  | [], _ => []
  | i :: rest, shown =>
    let r := check_market_event_preroll i.enabled shown i.date i.should_show i.message
    (if r.1 = true then
       match r.2.1 with
       | some t => [(i.date, t)]
       | none => []
     else []) ++ market_trace rest r.2.2

/-- Occurrence count of a key in a list of fired keys. -/
def count_key (k : ℕ × String) : List (ℕ × String) → ℕ
  | [] => 0
  | x :: t => (if x = k then 1 else 0) + count_key k t

/-!  Theorems.  -/

/-- C4: the window membership test is half-open: for `start ≤ end` it holds
iff `start ≤ t < end`, and for an overnight window (`start > end`) it holds
iff `t ≥ start ∨ t < end`. -/
theorem time_in_range_halfopen (t s e : ℚ) :
    (s ≤ e → (time_in_range t s e = true ↔ (s ≤ t ∧ t < e))) ∧
    (s > e → (time_in_range t s e = true ↔ (t ≥ s ∨ t < e))) := by
  constructor
  · intro hse
    simp only [time_in_range, decide_eq_true_eq]
    constructor
    · rintro (⟨_, h1, h2⟩ | ⟨hgt, _⟩)
      · exact ⟨h1, h2⟩
      · exact absurd hgt (not_lt.2 hse)
    · intro h
      exact Or.inl ⟨hse, h.1, h.2⟩
  · intro hse
    simp only [time_in_range, decide_eq_true_eq]
    constructor
    · rintro (⟨hle, _, _⟩ | ⟨_, h⟩)
      · exact absurd hle (not_le.2 hse)
      · exact h
    · intro h
      exact Or.inr ⟨hse, h⟩

/-- Witness for C4 at `t = 5, start = 2, end = 7` and at the overnight
window `t = 1, start = 22, end = 7`. -/
theorem time_in_range_halfopen_witness :
    ((2:ℚ) ≤ 7) ∧ (time_in_range 5 2 7 = true ↔ ((2:ℚ) ≤ 5 ∧ (5:ℚ) < 7)) ∧
    ((22:ℚ) > 7) ∧ (time_in_range 1 22 7 = true ↔ ((1:ℚ) ≥ 22 ∨ (1:ℚ) < 7)) :=
  ⟨by norm_num, (time_in_range_halfopen 5 2 7).1 (by norm_num),
   by norm_num, (time_in_range_halfopen 1 22 7).2 (by norm_num)⟩

/-- C3 counterexample: with a quick-dim percentage of 200 the returned dim
scale is the clamped value 1, not 200/100 = 2, so "the dim scale equals
that percentage divided by 100" is false as stated. -/
theorem current_dim_scale_quick_cex :
    current_dim_scale 200 false 0 0 0 0 30 0 = 1 ∧ (200 : ℚ) / 100 ≠ 1 := by
  constructor
  · norm_num [current_dim_scale]
  · norm_num

/-- C3 (amended): the quick-dim branch returns `pct/100` clamped into
`[0.01, 1.0]`, the night branch returns the night percentage likewise
clamped when `now` is in the (possibly wrapping) night window, otherwise
1.0 is returned; and the result always lies in `[0.01, 1.0]`. -/
theorem current_dim_scale_cases (qd : ℚ) (nme : Bool) (sh sm eh em : ℤ)
    (nd : ℚ) (t : ℚ) :
    (qd > 0 → current_dim_scale qd nme sh sm eh em nd t = max (1/100) (min 1 (qd / 100))) ∧
    (¬ qd > 0 → (nme = true ∧
        time_in_range t (dtime_val (parse_hhmm sh sm).1 (parse_hhmm sh sm).2)
          (dtime_val (parse_hhmm eh em).1 (parse_hhmm eh em).2) = true) →
      current_dim_scale qd nme sh sm eh em nd t = max (1/100) (min 1 (nd / 100))) ∧
    (¬ qd > 0 → ¬(nme = true ∧
        time_in_range t (dtime_val (parse_hhmm sh sm).1 (parse_hhmm sh sm).2)
          (dtime_val (parse_hhmm eh em).1 (parse_hhmm eh em).2) = true) →
      current_dim_scale qd nme sh sm eh em nd t = 1) ∧
    (1/100 ≤ current_dim_scale qd nme sh sm eh em nd t ∧
      current_dim_scale qd nme sh sm eh em nd t ≤ 1) := by
  refine ⟨?_, ?_, ?_, ?_⟩
  · intro h
    simp only [current_dim_scale, if_pos h]
  · intro h1 h2
    simp only [current_dim_scale, if_neg h1, if_pos h2]
  · intro h1 h2
    simp only [current_dim_scale, if_neg h1, if_neg h2]
  · unfold current_dim_scale
    split_ifs with h1 h2
    · constructor
      · exact le_max_left _ _
      · exact max_le (by norm_num) (min_le_left _ _)
    · constructor
      · exact le_max_left _ _
      · exact max_le (by norm_num) (min_le_left _ _)
    · norm_num

/-- Witness for C3 (amended), spec Scenario B: quick-dim 0, night mode
22:00-07:00 at dim 30%: at 23:00 (82800 s) the scale is 0.30 and lies in
range; at 12:00 (43200 s) it is 1.0. -/
theorem current_dim_scale_cases_witness :
    current_dim_scale 0 true 22 0 7 0 30 82800 = max (1/100) (min 1 (30 / 100)) ∧
    current_dim_scale 0 true 22 0 7 0 30 43200 = 1 ∧
    (1/100 ≤ current_dim_scale 0 true 22 0 7 0 30 82800 ∧
      current_dim_scale 0 true 22 0 7 0 30 82800 ≤ 1) :=
  ⟨(current_dim_scale_cases 0 true 22 0 7 0 30 82800).2.1 (by norm_num) ⟨rfl, rfl⟩,
   (current_dim_scale_cases 0 true 22 0 7 0 30 43200).2.2.1 (by norm_num) (by decide),
   (current_dim_scale_cases 0 true 22 0 7 0 30 82800).2.2.2⟩

/-- C6: with positive scroll speed and a non-negative frame delta, the
drawn pixel position `sp` never increases across one advance of the cursor
that has not yet completed (no reset fired). -/
theorem sp_monotone_advance (x pps dt total_w : ℚ) (hp : 0 < pps) (hd : 0 ≤ dt)
    (hnotdone : ¬(x - pps * dt < -total_w)) :
    sp (x - pps * dt) ≤ sp x := by
  have h1 : 0 ≤ pps * dt := mul_nonneg hp.le hd
  exact Int.ceil_le_ceil (by linarith)

/-- Witness for C6 at `x = 10, pps = 2, dt = 1, totalSegmentWidth = 5`. -/
theorem sp_monotone_advance_witness :
    (0:ℚ) < 2 ∧ (0:ℚ) ≤ 1 ∧ ¬((10:ℚ) - 2 * 1 < -5) ∧ sp (10 - 2 * 1) ≤ sp 10 :=
  ⟨by norm_num, by norm_num, by norm_num,
   sp_monotone_advance 10 2 1 5 (by norm_num) (by norm_num) (by norm_num)⟩

/-- The drain loop of `put_latest` empties the pending list. -/
theorem drain_all_items_eq_nil {α : Type} (l : List α) : drain_all_items l = [] := by
  induction l with
  | nil => rfl
  | cons h t ih => exact ih

/-- After any `put_latest` the queue holds exactly the pushed payload. -/
theorem put_latest_items_eq {α : Type} (q : BQueue α) (p : α) :
    (put_latest q p).items = [p] := by
  have hnil : drain_all_items q.items = [] := drain_all_items_eq_nil q.items
  have hc : ¬(0 < q.maxsize ∧ q.maxsize = 0) := by omega
  simp [put_latest, put_nowait, hnil, hc]

/-- `put_latest` preserves the configured capacity. -/
theorem put_latest_maxsize_eq {α : Type} (q : BQueue α) (p : α) :
    (put_latest q p).maxsize = q.maxsize := by
  have hnil : drain_all_items q.items = [] := drain_all_items_eq_nil q.items
  have hc : ¬(0 < q.maxsize ∧ q.maxsize = 0) := by omega
  simp [put_latest, put_nowait, hnil, hc]

/-- After a non-empty sequence of `put_latest` pushes the queue holds
exactly the last pushed payload. -/
theorem foldl_put_latest_items {α : Type} (ps : List α) (hne : ps ≠ [])
    (q : BQueue α) : (ps.foldl put_latest q).items = ps.getLast?.toList := by
  induction ps generalizing q with
  | nil => exact absurd rfl hne
  | cons a t ih =>
    cases t with
    | nil => simpa using put_latest_items_eq q a
    | cons b u =>
      rw [List.foldl_cons, List.getLast?_cons_cons]
      exact ih (by simp) (put_latest q a)

/-- C10 (implicit): the producer-side collapse — after every `put_latest`
the queue contains exactly one message, the one just pushed, because the
producer drains all pending entries before pushing. -/
theorem put_latest_producer_collapse {α : Type} (q : BQueue α) (p : α) :
    (put_latest q p).items = [p] := put_latest_items_eq q p

/-- C8: for a queue of positive capacity, after any non-empty sequence of
producer pushes the queue length stays within the capacity, every push
lands (the queue holds the pushed value), and one consumer drain yields
exactly the most-recently-pushed value. -/
theorem latest_wins_queue_ok {α : Type} (q : BQueue α) (ps : List α)
    (hcap : 0 < q.maxsize) (hne : ps ≠ []) :
    (ps.foldl put_latest q).items.length ≤ q.maxsize ∧
    (ps.foldl put_latest q).items = ps.getLast?.toList ∧
    drain_newest (ps.foldl put_latest q).items = ps.getLast? := by
  have hitems := foldl_put_latest_items ps hne q
  obtain ⟨x, hx⟩ : ∃ x, ps.getLast? = some x := by
    cases hps : ps.getLast? with
    | none => exact absurd (List.getLast?_eq_none_iff.mp hps) hne
    | some x => exact ⟨x, rfl⟩
  refine ⟨?_, hitems, ?_⟩
  · rw [hitems, hx]
    simpa using hcap
  · rw [hitems, hx]
    rfl

/-- Witness for C8: capacity 10, pushes 1..5: the queue ends as `[5]` and
the drain yields 5. -/
theorem latest_wins_queue_ok_witness :
    (0 < 10) ∧
    ((([1, 2, 3, 4, 5] : List ℕ).foldl put_latest ⟨10, []⟩).items.length ≤ 10 ∧
     (([1, 2, 3, 4, 5] : List ℕ).foldl put_latest ⟨10, []⟩).items =
       ([1, 2, 3, 4, 5] : List ℕ).getLast?.toList ∧
     drain_newest (([1, 2, 3, 4, 5] : List ℕ).foldl put_latest ⟨10, []⟩).items =
       ([1, 2, 3, 4, 5] : List ℕ).getLast?) :=
  ⟨by norm_num, latest_wins_queue_ok ⟨10, []⟩ [1, 2, 3, 4, 5] (by norm_num) (by simp)⟩

/-- Concrete completion input for the C7 counterexample: a completion
fires (cursor fell past the segment width) with the injector enabled, the
single row selected, `MESSAGE_EVERY = 2`, no test-force. -/
def c7_i : RowIn := ⟨1, 10, 5, 192, false, true, "single", 2⟩

/-- Concrete pre-completion row state for the C7 counterexample. -/
def c7_s : RowSt := ⟨0, 1, false, 0⟩

/-- C7 counterexample: at this completion the incremented counter is 2 and
`MESSAGE_EVERY = 2`, so the claimed predicate `(completedCount mod every) == 0`
holds, yet the code leaves the injection flag false — the source evaluates
`((completed + 1) mod every) == 0` with the already-incremented counter. -/
theorem completion_predicate_cex :
    (single_row_step c7_i c7_s).completed = 2 ∧
    (single_row_step c7_i c7_s).completed % 2 = 0 ∧
    (single_row_step c7_i c7_s).show_msg = false := by
  refine ⟨?_, ?_, ?_⟩ <;> norm_num [single_row_step, c7_i, c7_s]

/-- C7 (amended): when the advanced cursor falls past `-max(1, totalSegmentWidth)`
and test-force is off, the completion step increments `completedCount`,
resets the position to the frame width `W`, decides the periodic message
injection by `((completedCount + 1) mod max(1, every)) == 0` on the
already-incremented counter, and decrements a pending one-shot banner
counter. -/
theorem completion_step_fields (i : RowIn) (s : RowSt)
    (hfire : s.x - i.pps * i.dt < -(max 1 i.total_w))
    (hforce : i.MESSAGE_TEST_FORCE = false) :
    (single_row_step i s).completed = s.completed + 1 ∧
    (single_row_step i s).x = i.W ∧
    (single_row_step i s).show_msg =
      (i.injector_active &&
        (decide (i.MESSAGE_ROW = "single") || decide (i.MESSAGE_ROW = "auto")) &&
        decide ((s.completed + 1 + 1) % max 1 i.MESSAGE_EVERY = 0)) ∧
    (single_row_step i s).market_open_scrolls_left =
      (if s.market_open_scrolls_left > 0 then s.market_open_scrolls_left - 1
       else s.market_open_scrolls_left) := by
  simp [single_row_step, if_pos hfire, hforce]

/-- Witness for C7 (amended): `MESSAGE_EVERY = 3`, counter 1 before the
completion; the new counter is 2 and the injection flag is set because
`(2 + 1) mod 3 == 0`. -/
theorem completion_step_fields_witness :
    (single_row_step ⟨1, 10, 5, 192, false, true, "single", 3⟩ ⟨0, 1, false, 4⟩).completed =
      (1 : ℤ) + 1 ∧
    (single_row_step ⟨1, 10, 5, 192, false, true, "single", 3⟩ ⟨0, 1, false, 4⟩).x = 192 ∧
    (single_row_step ⟨1, 10, 5, 192, false, true, "single", 3⟩ ⟨0, 1, false, 4⟩).show_msg =
      (true && (decide (("single" : String) = "single") || decide (("single" : String) = "auto")) &&
        decide (((1 : ℤ) + 1 + 1) % max 1 (3 : ℤ) = 0)) ∧
    (single_row_step ⟨1, 10, 5, 192, false, true, "single", 3⟩ ⟨0, 1, false, 4⟩).market_open_scrolls_left =
      (if (4 : ℤ) > 0 then (4 : ℤ) - 1 else 4) :=
  completion_step_fields ⟨1, 10, 5, 192, false, true, "single", 3⟩ ⟨0, 1, false, 4⟩
    (by norm_num) rfl

/-- `check_market_event_preroll` either fires on a key that was not yet in
the shown set, prepending it, or returns the set untouched without
firing. -/
theorem check_market_event_cases (en : Bool) (shown : List (ℕ × String)) (d : ℕ)
    (ss : Bool) (msg : String) :
    (∃ t, (d, t) ∉ shown ∧
       check_market_event_preroll en shown d ss msg = (true, some t, (d, t) :: shown)) ∨
    check_market_event_preroll en shown d ss msg = (false, none, shown) := by
  cases en with
  | false => right; rfl
  | true =>
    cases ss with
    | false => right; rfl
    | true =>
      show _ ∨ (if (true : Bool) = false then _ else _) = _
      rw [if_neg (by simp), if_neg (by simp)]
      cases hopt : (if str_contains (String.toUpper msg) "OPEN" = true then some "open"
                    else if str_contains (String.toUpper msg) "CLOSE" = true then some "close"
                    else (none : Option String)) with
      | none => right; simp [check_market_event_preroll, hopt]
      | some t =>
        by_cases hmem : ((d, t) : ℕ × String) ∈ shown
        · right; simp [check_market_event_preroll, hopt, hmem]
        · left; exact ⟨t, hmem, by simp [check_market_event_preroll, hopt, hmem]⟩

/-- The shown set only grows across a `check_market_event_preroll` call. -/
theorem check_market_event_mono (en : Bool) (shown : List (ℕ × String)) (d : ℕ)
    (ss : Bool) (msg : String) (k : ℕ × String) (hk : k ∈ shown) :
    k ∈ (check_market_event_preroll en shown d ss msg).2.2 := by
  rcases check_market_event_cases en shown d ss msg with ⟨t, _, heq⟩ | heq <;> rw [heq]
  · exact List.mem_cons_of_mem _ hk
  · exact hk

/-- A key already recorded in the shown set never fires again in any later
tick. -/
theorem market_trace_count_zero (inputs : List MTick) :
    ∀ (shown : List (ℕ × String)) (k : ℕ × String), k ∈ shown →
      count_key k (market_trace inputs shown) = 0 := by
  induction inputs with
  | nil => intro _ _ _; rfl
  | cons i rest ih =>
    intro shown k hk
    rcases check_market_event_cases i.enabled shown i.date i.should_show i.message with
      ⟨t, hnot, heq⟩ | heq
    · have hne : ((i.date, t) : ℕ × String) ≠ k := fun h => hnot (h ▸ hk)
      simp [market_trace, heq, count_key, hne]
      exact ih ((i.date, t) :: shown) k (List.mem_cons_of_mem _ hk)
    · simp [market_trace, heq]
      exact ih shown k hk

/-- C5: over any sequence of ticks starting from the empty
`market_event_shown_today` set, each `(date, event_type)` key fires a
market-event preroll at most once. -/
theorem market_event_once (inputs : List MTick) (k : ℕ × String) :
    count_key k (market_trace inputs []) ≤ 1 := by
  suffices h : ∀ (shown : List (ℕ × String)),
      count_key k (market_trace inputs shown) ≤ 1 from h []
  induction inputs with
  | nil => intro _; exact Nat.zero_le 1
  | cons i rest ih =>
    intro shown
    rcases check_market_event_cases i.enabled shown i.date i.should_show i.message with
      ⟨t, _, heq⟩ | heq
    · by_cases hk : ((i.date, t) : ℕ × String) = k
      · subst hk
        have hz := market_trace_count_zero rest ((i.date, t) :: shown) (i.date, t)
          (List.mem_cons_self _ _)
        simp [market_trace, heq, count_key, hz]
      · have hle := ih ((i.date, t) :: shown)
        simp only [market_trace, heq]
        simp [count_key, hk]
        omega
    · simp [market_trace, heq]
      exact ih shown

/-- C2 counterexample: a market-event preroll whose announcement window
has closed is ended early by the render phase (`ticker.py` line 1508) even
with override mode `BRIGHT` (reachable by hot-reloading `OVERRIDE_MODE`
to BRIGHT mid-preroll): the display state moves PREROLL → TICKER while the
override mode is not OFF, so "transitions are evaluated only when
OverrideMode == OFF" is false as stated. -/
theorem display_gate_cex :
    (⟨St.preroll, "market_open", 0, 1000, [], "BRIGHT", false⟩ : Bundle).override_mode = "BRIGHT" ∧
    (⟨St.preroll, "market_open", 0, 1000, [], "BRIGHT", false⟩ : Bundle).state = St.preroll ∧
    (full_tick ⟨10, 0, true, true, "normal", 12, false, false, "", false⟩ false
        ⟨St.preroll, "market_open", 0, 1000, [], "BRIGHT", false⟩).state = St.ticker := by
  refine ⟨rfl, rfl, ?_⟩
  norm_num [full_tick, display_step, render_phase_step]

/-- C2 (amended): over a whole tick (guarded transition block followed by
the render phase), the FSM enters SCOREBOARD only when the override mode
is OFF and no score alert is active; and with that gate closed the tick
leaves the display state unchanged, with the single exception of the
render-phase early exit — under override mode BRIGHT, with no alert
render pending, a market-reason PREROLL whose announcement window has
closed moves to TICKER (line 1508). -/
theorem display_gate_full (i : TickIn) (aq : Bool) (b : Bundle) :
    (b.state ≠ St.scoreboard → (full_tick i aq b).state = St.scoreboard →
       b.override_mode = "OFF" ∧ ¬(i.SCORE_ALERTS_ENABLED = true ∧ b.alert_obj = true)) ∧
    ((¬ b.override_mode = "OFF" ∨ (i.SCORE_ALERTS_ENABLED = true ∧ b.alert_obj = true)) →
       full_tick i aq b = b ∨
       (b.override_mode = "BRIGHT" ∧
        ¬(i.SCORE_ALERTS_ENABLED = true ∧ (b.alert_obj = true ∨ aq = true)) ∧
        b.state = St.preroll ∧
        (b.preroll_reason = "market_open" ∨ b.preroll_reason = "market_close") ∧
        ¬(i.ann_should_show = true ∧ ¬ i.ann_message = "") ∧
        full_tick i aq b = { b with state := St.ticker, state_enter_ts := i.now })) := by
  have key : (¬ b.override_mode = "OFF" ∨ (i.SCORE_ALERTS_ENABLED = true ∧ b.alert_obj = true)) →
      full_tick i aq b = b ∨
      (b.override_mode = "BRIGHT" ∧
       ¬(i.SCORE_ALERTS_ENABLED = true ∧ (b.alert_obj = true ∨ aq = true)) ∧
       b.state = St.preroll ∧
       (b.preroll_reason = "market_open" ∨ b.preroll_reason = "market_close") ∧
       ¬(i.ann_should_show = true ∧ ¬ i.ann_message = "") ∧
       full_tick i aq b = { b with state := St.ticker, state_enter_ts := i.now }) := by
    intro hclosed
    have hng : ¬(b.override_mode = "OFF" ∧
        ¬(i.SCORE_ALERTS_ENABLED = true ∧ b.alert_obj = true)) := by
      rcases hclosed with h | h
      · exact fun hc => h hc.1
      · exact fun hc => hc.2 h
    have h1 : display_step i b = b := by simp only [display_step, if_neg hng]
    have hfull : full_tick i aq b = render_phase_step i aq b := by
      rw [full_tick, h1]
    rw [hfull]
    by_cases hov : ¬ b.override_mode = "OFF" ∧ ¬ b.override_mode = "BRIGHT"
    · left
      simp only [render_phase_step, if_pos hov]
    · by_cases hal : i.SCORE_ALERTS_ENABLED = true ∧ (b.alert_obj = true ∨ aq = true)
      · left
        simp only [render_phase_step, if_neg hov, if_pos hal]
      · by_cases hpr : b.state = St.preroll
        · by_cases hrs : b.preroll_reason = "market_open" ∨ b.preroll_reason = "market_close"
          · by_cases hann : i.ann_should_show = true ∧ ¬ i.ann_message = ""
            · left
              simp only [render_phase_step, if_neg hov, if_neg hal, if_pos hpr, if_pos hrs,
                if_pos hann]
            · right
              have hmode : b.override_mode = "BRIGHT" := by
                rcases not_and_or.mp hov with h | h
                · have hOFF : b.override_mode = "OFF" := not_not.mp h
                  rcases hclosed with hc | hc
                  · exact absurd hOFF hc
                  · exact absurd ⟨hc.1, Or.inl hc.2⟩ hal
                · exact not_not.mp h
              refine ⟨hmode, hal, hpr, hrs, hann, ?_⟩
              simp only [render_phase_step, if_neg hov, if_neg hal, if_pos hpr, if_pos hrs,
                if_neg hann]
          · left
            simp only [render_phase_step, if_neg hov, if_neg hal, if_pos hpr, if_neg hrs]
        · left
          simp only [render_phase_step, if_neg hov, if_neg hal, if_neg hpr]
  constructor
  · intro hnsb hsb
    by_cases hg : b.override_mode = "OFF" ∧
        ¬(i.SCORE_ALERTS_ENABLED = true ∧ b.alert_obj = true)
    · exact hg
    · rcases key ((not_and_or.mp hg).imp id not_not.mp) with h | h
      · rw [h] at hsb
        exact absurd hsb hnsb
      · rw [h.2.2.2.2.2] at hsb
        simp at hsb
  · exact key

/-- Witness for C2 (amended): a tick that enters SCOREBOARD (live game,
no preroll due) certifies the open gate at its concrete input. -/
theorem display_gate_full_witness :
    (⟨St.ticker, "hour", 0, 50, [], "OFF", false⟩ : Bundle).override_mode = "OFF" ∧
    ¬((⟨10, 0, false, true, "normal", 12, false, false, "", true⟩ : TickIn).SCORE_ALERTS_ENABLED = true ∧
      (⟨St.ticker, "hour", 0, 50, [], "OFF", false⟩ : Bundle).alert_obj = true) :=
  (display_gate_full ⟨10, 0, false, true, "normal", 12, false, false, "", true⟩ false
      ⟨St.ticker, "hour", 0, 50, [], "OFF", false⟩).1 (by simp)
    (by
      norm_num [full_tick, display_step, render_phase_step, check_market_event_preroll]
      decide)

/-- C1 counterexample: with `TIME_PREROLL_ENABLED = False`, the
top-of-hour deadline has passed (`now = 10 ≥ next_top_ts = 0`) yet the
step from TICKER enters SCOREBOARD, not PREROLL(hour): the hour preroll is
not unconditional. -/
theorem ticker_hour_cex :
    ((⟨St.ticker, "hour", 0, 0, [], "OFF", false⟩ : Bundle).next_top_ts ≤
      (⟨10, 0, false, true, "normal", 12, false, false, "", true⟩ : TickIn).now) ∧
    (display_step ⟨10, 0, false, true, "normal", 12, false, false, "", true⟩
        ⟨St.ticker, "hour", 0, 0, [], "OFF", false⟩).state = St.scoreboard ∧
    (display_step ⟨10, 0, false, true, "normal", 12, false, false, "", true⟩
        ⟨St.ticker, "hour", 0, 0, [], "OFF", false⟩).state ≠ St.preroll := by
  have h : (display_step ⟨10, 0, false, true, "normal", 12, false, false, "", true⟩
      ⟨St.ticker, "hour", 0, 0, [], "OFF", false⟩).state = St.scoreboard := by
    norm_num [display_step, check_market_event_preroll]
  refine ⟨by norm_num, h, ?_⟩
  rw [h]
  decide

/-- C1 (amended): from TICKER, with the override/alert gate open, the
priority order each tick is: (1) when time prerolls are enabled
(`TIME_PREROLL_ENABLED`) and the top-of-hour deadline has passed, enter
PREROLL("hour") regardless of any live game; (2) otherwise, when the
market-event check fires, enter PREROLL("market_open"/"market_close");
(3) SCOREBOARD is entered exactly when no hour preroll was due, the market
check did not fire, scoreboard is enabled and a game is live. -/
theorem ticker_priority (i : TickIn) (b : Bundle)
    (hmode : b.override_mode = "OFF")
    (halert : ¬(i.SCORE_ALERTS_ENABLED = true ∧ b.alert_obj = true))
    (hst : b.state = St.ticker) :
    (i.TIME_PREROLL_ENABLED = true ∧ i.now ≥ b.next_top_ts →
       (display_step i b).state = St.preroll ∧ (display_step i b).preroll_reason = "hour") ∧
    (¬(i.TIME_PREROLL_ENABLED = true ∧ i.now ≥ b.next_top_ts) →
       (check_market_event_preroll i.TIME_PREROLL_ENABLED b.shown_today i.date
          i.ann_should_show i.ann_message).1 = true →
       (display_step i b).state = St.preroll ∧
       (display_step i b).preroll_reason = "market_" ++
         ((check_market_event_preroll i.TIME_PREROLL_ENABLED b.shown_today i.date
            i.ann_should_show i.ann_message).2.1.getD "")) ∧
    ((display_step i b).state = St.scoreboard ↔
       (¬(i.TIME_PREROLL_ENABLED = true ∧ i.now ≥ b.next_top_ts) ∧
        (check_market_event_preroll i.TIME_PREROLL_ENABLED b.shown_today i.date
           i.ann_should_show i.ann_message).1 = false ∧
        i.SCOREBOARD_ENABLED = true ∧ i.any_live = true)) := by
  obtain ⟨st, rs, ets, ntt, sh, om, ao⟩ := b
  simp only at hst hmode halert
  subst hst
  have hg : om = "OFF" ∧ ¬(i.SCORE_ALERTS_ENABLED = true ∧ ao = true) := ⟨hmode, halert⟩
  simp only [display_step]
  rw [if_pos hg]
  refine ⟨?_, ?_, ?_⟩
  · intro hhd
    rw [if_pos hhd]
    exact ⟨rfl, rfl⟩
  · intro hhd hmk
    rw [if_neg hhd, if_pos hmk]
    exact ⟨rfl, rfl⟩
  · constructor
    · intro hsb
      by_cases hhd : i.TIME_PREROLL_ENABLED = true ∧ i.now ≥ ntt
      · rw [if_pos hhd] at hsb
        exact absurd hsb (by simp)
      · by_cases hmk : (check_market_event_preroll i.TIME_PREROLL_ENABLED sh
            i.date i.ann_should_show i.ann_message).1 = true
        · rw [if_neg hhd, if_pos hmk] at hsb
          exact absurd hsb (by simp)
        · by_cases hsl : i.SCOREBOARD_ENABLED = true ∧ i.any_live = true
          · exact ⟨hhd, by simpa using hmk, hsl.1, hsl.2⟩
          · rw [if_neg hhd, if_neg hmk, if_neg hsl] at hsb
            exact absurd hsb (by simp)
    · rintro ⟨hhd, hmk, hsb, hlive⟩
      have hmk' : ¬((check_market_event_preroll i.TIME_PREROLL_ENABLED sh
          i.date i.ann_should_show i.ann_message).1 = true) := by simp [hmk]
      rw [if_neg hhd, if_neg hmk', if_pos ⟨hsb, hlive⟩]

/-- Witness for C1 (amended): hour preroll fires at `now = 10` past the
deadline 5 even though a game is live. -/
theorem ticker_priority_witness :
    (display_step ⟨10, 0, true, true, "normal", 12, false, false, "", true⟩
        ⟨St.ticker, "x", 0, 5, [], "OFF", false⟩).state = St.preroll ∧
    (display_step ⟨10, 0, true, true, "normal", 12, false, false, "", true⟩
        ⟨St.ticker, "x", 0, 5, [], "OFF", false⟩).preroll_reason = "hour" :=
  (ticker_priority ⟨10, 0, true, true, "normal", 12, false, false, "", true⟩
      ⟨St.ticker, "x", 0, 5, [], "OFF", false⟩ rfl (by simp) rfl).1
    ⟨rfl, by norm_num⟩

/-- Applying the empty config document changes no global and raises no
flag. -/
theorem apply_config_empty (rc : Globals → Globals) (g : Globals) :
    apply_config rc [] g = (g, no_changes) := rfl

/-- C9: when the config document is missing (the mtime probe fails) or
fails to parse (the loaded document is `none`, treated as the empty
config), the reload path leaves every in-memory configuration value
unchanged and sets no change-category flag. -/
theorem reload_missing_or_corrupt (rc : Globals → Globals) (mr : Option ℚ)
    (mt : ℚ) (g : Globals) :
    (maybe_reload_config rc mr mt none g).1 = g ∧
    (maybe_reload_config rc mr mt none g).2.1 = no_changes := by
  cases mr with
  | none => exact ⟨rfl, rfl⟩
  | some m =>
    simp only [maybe_reload_config, atomic_load_json, Option.getD]
    split
    · exact ⟨rfl, rfl⟩
    · rw [apply_config_empty]
      exact ⟨rfl, rfl⟩

end Chromaticker
